import Mathlib

/-!
Verification of the ChatPM query-generation and validation core
(`backend/app.py`): the pattern-based SQL generator
(`simple_query_generator`), the heuristic validator (`validate_query`)
and the schema-context renderer (`build_schema_context`), shallowly
embedded over `String`/`List Char` with Python string operations
modelled explicitly.
-/

/-! ## String operations (Python semantics) -/

/-- Python substring membership `n in h`, on character lists.
The empty needle is a substring of everything. -/
def isSub (n : List Char) : List Char → Bool
  | [] => n.isEmpty
  | c :: t => n.isPrefixOf (c :: t) || isSub n t

/-- Python `needle in haystack` on strings. -/
def strIn (needle haystack : String) : Bool :=
  isSub needle.data haystack.data

/-- Python `s.lower()` (ASCII, as used by the source on identifiers and
English question text). -/
def strLower (s : String) : String :=
  ⟨s.data.map Char.toLower⟩

/-- Python `s.upper()`. -/
def strUpper (s : String) : String :=
  ⟨s.data.map Char.toUpper⟩

/-- Python `s.startswith(pre)`. -/
def strStarts (s pre : String) : Bool :=
  pre.data.isPrefixOf s.data

/-- Python `s.rstrip('s')`: drop every trailing `'s'` character. -/
def rstripS (s : String) : String :=
  ⟨(s.data.reverse.dropWhile (fun c => c = 's')).reverse⟩

/-- Python `any(w in q for w in kws)`. -/
def anyKw (kws : List String) (q : String) : Bool :=
  kws.any (fun w => strIn w q)

/-! ## Data model (Schema and Documentation, Section 3 of the design) -/

/-- One column as introspected: `{"name": ..., "type": ...}` plus the
primary-key flag merged in by `explore_schema`. -/
structure ColumnInfo where
  name : String
  type : String
  primary_key : Bool := false
deriving DecidableEq

/-- One foreign key entry as introspected by `explore_schema`. -/
structure ForeignKeyInfo where
  constrained_columns : List String
  referred_table : String
  referred_columns : List String
deriving DecidableEq

/-- One table: ordered column list and foreign keys (the only fields the
core reads; sample rows and row counts are never consulted by the
generator, validator or renderer). -/
structure TableInfo where
  columns : List ColumnInfo := []
  foreign_keys : List ForeignKeyInfo := []
deriving DecidableEq

/-- The schema: an insertion-ordered mapping table name to table info
(Python dict preserves insertion order). -/
abbrev Schema := List (String × TableInfo)

/-- Documentation overlay for one table. -/
structure TableDoc where
  description : String := ""
  columns : List (String × String) := []
deriving DecidableEq

/-- Documentation overlay: ordered mapping table name to its doc. -/
abbrev Documentation := List (String × TableDoc)

/-! ## Pattern generator (`simple_query_generator`, app.py lines 502-531) -/

/-- Table resolution of `simple_query_generator` (lines 509-517):
`target_table = None`, first table whose lower-cased name occurs in the
lower-cased question wins; afterwards `if not target_table and tables:
target_table = tables[0]` — Python truthiness, so an empty-string match
is replaced by the first table as well. -/
def resolve_target (question_lower : String) (tables : List String) : Option String :=
  match tables.find? (fun t => strIn (strLower t) question_lower) with
  | some t => if t = "" then tables.head? else some t
  | none => tables.head?

/-- `schema.get(target_table, {}).get("columns", [])` (line 526): a `None`
target or a missing table yields the empty column list. -/
def schema_columns (schema : Schema) (target : Option String) : List ColumnInfo :=
  match target with
  | none => []
  | some name => ((schema.find? (fun p => p.1 == name)).map (fun p => p.2.columns)).getD []

/-- `simple_query_generator(question, schema)` (lines 502-531). A `none`
schema models Python `None` (line 504 replaces it with `{}`); a `none`
target table is rendered by the f-strings as the text `None`. -/
def simple_query_generator (question : String) (schemaOpt : Option Schema) : String :=
  let schema := schemaOpt.getD []
  let question_lower := strLower question
  let tables := schema.map Prod.fst
  let target_table := resolve_target question_lower tables
  let tname := target_table.getD "None"
  if anyKw ["count", "how many", "total"] question_lower then
    "SELECT COUNT(*) FROM \"" ++ tname ++ "\""
  else if anyKw ["all", "show", "list", "get"] question_lower then
    "SELECT * FROM \"" ++ tname ++ "\" LIMIT 100"
  else if strIn "average" question_lower || strIn "avg" question_lower then
    let columns := schema_columns schema target_table
    let numeric_cols := (columns.filter
      (fun c => anyKw ["INT", "FLOAT", "DECIMAL", "NUMERIC"] (strUpper c.type))).map
      (fun c => c.name)
    match numeric_cols.head? with
    | some cname => "SELECT AVG(\"" ++ cname ++ "\") FROM \"" ++ tname ++ "\""
    | none => "SELECT * FROM \"" ++ tname ++ "\" LIMIT 10"
  else
    "SELECT * FROM \"" ++ tname ++ "\" LIMIT 10"

/-- The executor boundary's safety check (app.py line 175):
reject any query whose upper-cased text does not start with `SELECT`. -/
def executor_rejects (query : String) : Bool :=
  !(strStarts (strUpper query) "SELECT")

/-! ## Validator (`validate_query`, app.py lines 301-462) -/

/-- Keyword list `date_keywords` (lines 353-363). -/
def date_keywords : List String :=
  ["today", "yesterday", "tomorrow",
   "this week", "last week", "next week", "past week",
   "this month", "last month", "next month", "past month",
   "this year", "last year", "next year", "past year",
   "this quarter", "last quarter",
   "january", "february", "march", "april", "may", "june",
   "july", "august", "september", "october", "november", "december",
   "monday", "tuesday", "wednesday", "thursday", "friday", "saturday", "sunday",
   "2024", "2025", "2026", "2023", "2022", "2021", "2020"]

/-- Keyword list `duration_keywords` (lines 365-373). -/
def duration_keywords : List String :=
  ["last 7 days", "last 30 days", "last 90 days", "last 365 days",
   "past 7 days", "past 30 days", "past 90 days",
   "last week", "last month", "last year", "last quarter",
   "past week", "past month", "past year",
   "since", "before", "after", "between", "from", "until",
   "days ago", "weeks ago", "months ago", "years ago",
   "recent", "latest", "oldest", "newest"]

/-- Keyword list `time_period_keywords` (lines 375-380). -/
def time_period_keywords : List String :=
  ["daily", "weekly", "monthly", "yearly", "quarterly",
   "per day", "per week", "per month", "per year",
   "by day", "by week", "by month", "by year", "by date",
   "over time", "trend", "history", "historical"]

/-- `date_column_patterns` (line 387). -/
def date_column_patterns : List String :=
  ["date", "time", "created", "updated", "timestamp", "_at", "_on"]

/-- The date-function token list of line 390. -/
def date_function_tokens : List String :=
  ["DATE", "DATETIME", "TIMESTAMP", "STRFTIME", "DATE_TRUNC", "EXTRACT", "YEAR", "MONTH", "DAY"]

/-- `has_date_in_query` (line 388): a date-like pattern inside `sql.lower()`
where `sql` is the upper-cased query. -/
def has_date_in_query (sql : String) : Bool :=
  date_column_patterns.any (fun p => strIn p (strLower sql))

/-- `has_date_function` (line 390). -/
def has_date_function (sql : String) : Bool :=
  date_function_tokens.any (fun fn => strIn fn sql)

/-- The validator's running state: confidence plus the accumulated
issue and suggestion lists. -/
structure VS where
  confidence : Int
  issues : List String
  suggestions : List String
deriving DecidableEq

/-- One `issues.append(...)` / optional `suggestions.append(...)` /
`confidence -= d` step of the validator. -/
def push (s : VS) (issue : String) (sugg : Option String) (d : Int) : VS :=
  ⟨s.confidence - d, s.issues ++ [issue], s.suggestions ++ sugg.toList⟩

/-- Rule 1 (lines 314-318): count questions without COUNT. -/
def vr1 (q sql : String) (s : VS) : VS :=
  if anyKw ["how many", "count", "number of", "total number"] q && !(strIn "COUNT" sql) then
    push s "Question asks for a count, but query doesn\x27t use COUNT()"
      (some "Consider using SELECT COUNT(*) instead") 30
  else s

/-- Rule 2 (lines 321-325): total/sum questions without SUM or COUNT. -/
def vr2 (q sql : String) (s : VS) : VS :=
  if anyKw ["total", "sum of", "combined"] q && !(strIn "total number" q)
      && !(strIn "SUM" sql) && !(strIn "COUNT" sql) then
    push s "Question asks for a total/sum, but query doesn\x27t aggregate"
      (some "Consider using SUM() or COUNT() for totals") 25
  else s

/-- Rule 3 (lines 328-332): average questions without AVG. -/
def vr3 (q sql : String) (s : VS) : VS :=
  if anyKw ["average", "avg", "mean"] q && !(strIn "AVG" sql) then
    push s "Question asks for average, but query doesn\x27t use AVG()"
      (some "Consider using AVG() function") 30
  else s

/-- Rule 4 (lines 335-338): maximum questions without MAX or ORDER BY. -/
def vr4 (q sql : String) (s : VS) : VS :=
  if anyKw ["highest", "maximum", "max", "most", "largest", "biggest"] q
      && !(strIn "MAX" sql) && !(strIn "ORDER BY" sql) then
    push s "Question asks for maximum, but query doesn\x27t use MAX() or ORDER BY DESC" none 20
  else s

/-- Rule 5 (lines 340-343): minimum questions without MIN or ORDER BY. -/
def vr5 (q sql : String) (s : VS) : VS :=
  if anyKw ["lowest", "minimum", "min", "least", "smallest"] q
      && !(strIn "MIN" sql) && !(strIn "ORDER BY" sql) then
    push s "Question asks for minimum, but query doesn\x27t use MIN() or ORDER BY ASC" none 20
  else s

/-- Rule 6 (lines 346-350): grouping words without GROUP BY. -/
def vr6 (q sql : String) (s : VS) : VS :=
  if anyKw [" by ", " per ", " each ", " for each "] q && !(strIn "GROUP BY" sql) then
    push s "Question implies grouping, but query doesn\x27t use GROUP BY"
      (some "Consider adding GROUP BY clause") 20
  else s

/-- Rule 7 (lines 392-400): a date keyword in the question; the issue
message interpolates the first matching keyword. -/
def vr7 (q sql : String) (s : VS) : VS :=
  match date_keywords.find? (fun w => strIn w q) with
  | none => s
  | some w =>
    if !(strIn "WHERE" sql) then
      push s ("Question mentions a specific time (" ++ w ++ "), but query has no WHERE clause")
        (some "Add WHERE clause to filter by the specified date/time") 25
    else if !(has_date_in_query sql) && !(has_date_function sql) then
      push s "Question mentions a date/time, but query doesn\x27t seem to filter on a date column"
        (some "Ensure the WHERE clause filters on a date/timestamp column") 20
    else s

/-- Rule 8 (lines 402-410): a duration keyword in the question. -/
def vr8 (q sql : String) (s : VS) : VS :=
  if duration_keywords.any (fun w => strIn w q) then
    if !(strIn "WHERE" sql) then
      push s "Question specifies a duration/period, but query has no WHERE clause to limit the time range"
        (some "Add WHERE clause with date range filtering (e.g., WHERE created_at >= date)") 30
    else if !(has_date_in_query sql) && !(has_date_function sql) then
      push s "Question asks for a specific time period, but query may not correctly filter the date range"
        (some "Verify the date filtering logic matches the requested period") 20
    else s
  else s

/-- Rule 9 (lines 412-420): a periodicity keyword in the question; the
issue message interpolates the first matching keyword. -/
def vr9 (q sql : String) (s : VS) : VS :=
  match time_period_keywords.find? (fun w => strIn w q) with
  | none => s
  | some w =>
    if !(strIn "GROUP BY" sql) then
      push s ("Question implies time-based grouping (" ++ w ++ "), but query has no GROUP BY")
        (some "Add GROUP BY clause to aggregate data by the time period") 25
    else if !(has_date_in_query sql) && !(has_date_function sql) then
      push s "Question asks for time-based analysis, but query may not group by a date column"
        (some "Ensure GROUP BY includes a date column or date extraction function") 15
    else s

/-- `tables_in_query` (lines 423-426): tables whose upper-cased name is in
the upper-cased SQL or whose double-quoted name is in the original query. -/
def tables_in_query (schema : Schema) (sql query : String) : List String :=
  (schema.map Prod.fst).filter
    (fun tn => strIn (strUpper tn) sql || strIn ("\"" ++ tn ++ "\"") query)

/-- Rule 10 (lines 429-434): for each table, if its singular form
(`rstrip('s').lower()`) occurs in the question and the table is not used
by the query (nor any used table name starts with the singular form),
deduct 15. -/
def vr10 (q sql query : String) (schema : Schema) (s : VS) : VS :=
  schema.foldl
    (fun st p =>
      if strIn (strLower (rstripS p.1)) q && !((tables_in_query schema sql query).contains p.1)
          && !((tables_in_query schema sql query).any
                (fun t => strStarts (strLower t) (strLower (rstripS p.1)))) then
        push st ("Question mentions \x27" ++ strLower (rstripS p.1)
          ++ "\x27 but query doesn\x27t use \x27" ++ p.1 ++ "\x27 table") none 15
      else st)
    s

/-- Rule 11 (lines 437-441): top/first questions without LIMIT. -/
def vr11 (q sql : String) (s : VS) : VS :=
  if anyKw ["top ", "first ", "best "] q && !(strIn "LIMIT" sql) then
    push s "Question asks for top/first items but query has no LIMIT"
      (some "Add LIMIT clause to restrict results") 10
  else s

/-- The full rule battery, in source order, starting from confidence 100
and empty issue/suggestion lists. -/
def run_rules (q sql query : String) (schema : Schema) : VS :=
  vr11 q sql (vr10 q sql query schema (vr9 q sql (vr8 q sql (vr7 q sql
    (vr6 q sql (vr5 q sql (vr4 q sql (vr3 q sql (vr2 q sql (vr1 q sql ⟨100, [], []⟩))))))))))

/-- The validator's result record. -/
structure ValidationResult where
  status : String
  confidence : Int
  message : String
  issues : List String
  suggestions : List String
deriving DecidableEq

/-- Lines 444-462: clamp confidence at 20 and map it to status/message. -/
def finalize (s : VS) : ValidationResult :=
  let confidence := max s.confidence 20
  if confidence ≥ 80 then
    ⟨"good", confidence, "Query looks good and matches your question", s.issues, s.suggestions⟩
  else if confidence ≥ 60 then
    ⟨"warning", confidence, "Query may partially match your question", s.issues, s.suggestions⟩
  else
    ⟨"error", confidence, "Query might not fully answer your question", s.issues, s.suggestions⟩

/-- `validate_query(question, query, schema)` (lines 301-462): lower-case
the question, upper-case the SQL, run the rules, clamp and classify. A
`none` schema models Python `None` (line 303 replaces it with `{}`). -/
def validate_query (question query : String) (schemaOpt : Option Schema) : ValidationResult :=
  finalize (run_rules (strLower question) (strUpper query) query (schemaOpt.getD []))

/-! ## Context renderer (`build_schema_context`, app.py lines 465-499) -/

/-- Python `repr` of a list of plain identifier strings, as produced by
the f-string of line 495 for the foreign-key column lists. -/
def py_list_repr (l : List String) : String :=
  "[" ++ String.intercalate ", " (l.map (fun s => "\x27" ++ s ++ "\x27")) ++ "]"

/-- `documentation.get(table_name, {})` (line 473). -/
def doc_for (doc : Documentation) (name : String) : TableDoc :=
  ((doc.find? (fun p => p.1 == name)).map (fun p => p.2)).getD {}

/-- One column line (lines 481-490): `    - name: type`, a primary-key
marker when flagged, and a trailing ` -- description` when the
documentation has a non-empty one. -/
def column_line (table_doc : TableDoc) (col : ColumnInfo) : String :=
  let col_doc := ((table_doc.columns.find? (fun p => p.1 == col.name)).map (fun p => p.2)).getD ""
  let pk := if col.primary_key then " (PRIMARY KEY)" else ""
  let line := "    - " ++ col.name ++ ": " ++ col.type ++ pk
  if col_doc ≠ "" then line ++ " -- " ++ col_doc else line

/-- One foreign-key line (line 495). -/
def fk_line (fk : ForeignKeyInfo) : String :=
  "    - " ++ py_list_repr fk.constrained_columns ++ " -> "
    ++ fk.referred_table ++ "(" ++ py_list_repr fk.referred_columns ++ ")"

/-- The lines appended for one table by the loop body of lines 472-497. -/
def table_lines (doc : Documentation) (name : String) (ti : TableInfo) : List String :=
  ["TABLE: " ++ name]
  ++ (if (doc_for doc name).description ≠ ""
      then ["  Description: " ++ (doc_for doc name).description] else [])
  ++ ["  COLUMNS:"]
  ++ ti.columns.map (column_line (doc_for doc name))
  ++ (if ti.foreign_keys ≠ [] then "  FOREIGN KEYS:" :: ti.foreign_keys.map fk_line else [])
  ++ [""]

/-- The `lines` list accumulated by `build_schema_context` before the
final join (lines 471-497). `none` models a Python `None` argument
(lines 467-470 replace it with `{}`). -/
def build_schema_context_lines (schemaOpt : Option Schema) (docOpt : Option Documentation) :
    List String :=
  (schemaOpt.getD []).foldl (fun lines p => lines ++ table_lines (docOpt.getD []) p.1 p.2) []

/-- `build_schema_context(schema, documentation)` (lines 465-499). -/
def build_schema_context (schemaOpt : Option Schema) (docOpt : Option Documentation) : String :=
  String.intercalate "\n" (build_schema_context_lines schemaOpt docOpt)

/-! ## Spec-side definitions for the refinement claims

These two definitions follow the words of the specification (and of the
claims), to be compared with the source-translated
`simple_query_generator`. -/

/-- Spec wording of table resolution: the first table in Schema order
whose name appears case-insensitively as a substring of the question;
if none matches, the first table in Schema order. -/
def target_table_spec (question : String) (s : Schema) : Option String :=
  match (s.map Prod.fst).find? (fun t => strIn (strLower t) (strLower question)) with
  | some t => some t
  | none => (s.map Prod.fst).head?

/-- Spec wording of intent resolution, first match wins: count keywords,
then show keywords, then average keywords with the first column of the
target table whose type contains a numeric marker, then the default. -/
def intent_spec (ql : String) (s : Schema) (t : String) : String :=
  if anyKw ["count", "how many", "total"] ql then
    "SELECT COUNT(*) FROM \"" ++ t ++ "\""
  else if anyKw ["all", "show", "list", "get"] ql then
    "SELECT * FROM \"" ++ t ++ "\" LIMIT 100"
  else if strIn "average" ql || strIn "avg" ql then
    match ((schema_columns s (some t)).find?
        (fun c => anyKw ["INT", "FLOAT", "DECIMAL", "NUMERIC"] (strUpper c.type))).map
        (fun c => c.name) with
    | some cname => "SELECT AVG(\"" ++ cname ++ "\") FROM \"" ++ t ++ "\""
    | none => "SELECT * FROM \"" ++ t ++ "\" LIMIT 10"
  else
    "SELECT * FROM \"" ++ t ++ "\" LIMIT 10"

/-! ## Concrete fixtures used by the scenario claims -/

/-- Scenario C schema exactly as the claim states it: one table
`products` with one column `price` of declared type `REAL`. -/
def schema_products_real : Schema :=
  [("products", { columns := [⟨"price", "REAL", false⟩] })]

/-- Scenario C schema with the column type replaced by `NUMERIC`, one of
the four markers the source actually recognises. -/
def schema_products_numeric : Schema :=
  [("products", { columns := [⟨"price", "NUMERIC", false⟩] })]

/-- Scenario D schema: one table `sales`. -/
def schema_sales : Schema := [("sales", {})]

/-- A degenerate schema containing an empty-string table name. -/
def schema_degenerate : Schema := [("a", {}), ("", {})]

/-! ## Helper lemmas -/

theorem isPrefixOf_append_right (p x y : List Char) (h : p.isPrefixOf x = true) :
    p.isPrefixOf (x ++ y) = true := by
  induction p generalizing x with
  | nil => simp [List.isPrefixOf]
  | cons a as ih =>
    cases x with
    | nil => simp [List.isPrefixOf] at h
    | cons b bs =>
      simp only [List.cons_append, List.isPrefixOf, Bool.and_eq_true] at h ⊢
      exact ⟨h.1, ih bs h.2⟩

theorem starts_append (a b pre : String) (h : strStarts a pre = true) :
    strStarts (a ++ b) pre = true := by
  unfold strStarts at h ⊢
  exact isPrefixOf_append_right pre.data a.data b.data h

theorem strUpper_append (a b : String) : strUpper (a ++ b) = strUpper a ++ strUpper b := by
  cases a with
  | mk la =>
    cases b with
    | mk lb =>
      show String.mk ((la ++ lb).map Char.toUpper) = String.mk (la.map Char.toUpper ++ lb.map Char.toUpper)
      rw [List.map_append]

theorem sel_shape_append (x y : String) (h : ∃ r, x = "SELECT" ++ r) :
    ∃ r, x ++ y = "SELECT" ++ r := by
  obtain ⟨r, hr⟩ := h
  exact ⟨r ++ y, by rw [hr, String.append_assoc]⟩

/-- Every result of the pattern generator is the literal `SELECT`
followed by some remainder. -/
theorem gen_shape (question : String) (schemaOpt : Option Schema) :
    ∃ r, simple_query_generator question schemaOpt = "SELECT" ++ r := by
  simp only [simple_query_generator]
  split
  · apply sel_shape_append
    apply sel_shape_append
    exact ⟨" COUNT(*) FROM \"", by decide⟩
  · split
    · apply sel_shape_append
      apply sel_shape_append
      exact ⟨" * FROM \"", by decide⟩
    · split
      · split
        · apply sel_shape_append
          apply sel_shape_append
          apply sel_shape_append
          apply sel_shape_append
          exact ⟨" AVG(\"", by decide⟩
        · apply sel_shape_append
          apply sel_shape_append
          exact ⟨" * FROM \"", by decide⟩
      · apply sel_shape_append
        apply sel_shape_append
        exact ⟨" * FROM \"", by decide⟩

theorem head?_filter_map {α β : Type} (p : α → Bool) (f : α → β) (l : List α) :
    ((l.filter p).map f).head? = (l.find? p).map f := by
  induction l with
  | nil => rfl
  | cons a rest ih =>
    cases hp : p a with
    | true => simp [List.filter_cons, List.find?_cons, hp]
    | false => simp [List.filter_cons, List.find?_cons, hp, ih]

theorem resolve_target_some (question_lower : String) (tables : List String)
    (h : tables ≠ []) : ∃ t, resolve_target question_lower tables = some t := by
  unfold resolve_target
  cases tables with
  | nil => exact absurd rfl h
  | cons a rest =>
    cases hf : (a :: rest).find? (fun t => strIn (strLower t) question_lower) with
    | none => exact ⟨a, rfl⟩
    | some t =>
      by_cases ht : t = ""
      · exact ⟨a, by simp [ht]⟩
      · exact ⟨t, by simp [ht]⟩

/-- The validator-state invariant: confidence never exceeds 100, and it
equals 100 exactly when no issue has been recorded. -/
def VInv (s : VS) : Prop :=
  s.confidence ≤ 100 ∧ (s.confidence = 100 ↔ s.issues = [])

theorem push_inv {s : VS} (m : String) (g : Option String) {d : Int}
    (hd : 0 < d) (h : VInv s) : VInv (push s m g d) := by
  obtain ⟨h1, h2⟩ := h
  constructor
  · simp only [push]
    omega
  · simp only [push]
    constructor
    · intro hc
      exfalso
      omega
    · intro hi
      simp at hi

theorem vr1_inv (q sql : String) {s : VS} (h : VInv s) : VInv (vr1 q sql s) := by
  unfold vr1
  split
  · exact push_inv _ _ (by norm_num) h
  · exact h

theorem vr2_inv (q sql : String) {s : VS} (h : VInv s) : VInv (vr2 q sql s) := by
  unfold vr2
  split
  · exact push_inv _ _ (by norm_num) h
  · exact h

theorem vr3_inv (q sql : String) {s : VS} (h : VInv s) : VInv (vr3 q sql s) := by
  unfold vr3
  split
  · exact push_inv _ _ (by norm_num) h
  · exact h

theorem vr4_inv (q sql : String) {s : VS} (h : VInv s) : VInv (vr4 q sql s) := by
  unfold vr4
  split
  · exact push_inv _ _ (by norm_num) h
  · exact h

theorem vr5_inv (q sql : String) {s : VS} (h : VInv s) : VInv (vr5 q sql s) := by
  unfold vr5
  split
  · exact push_inv _ _ (by norm_num) h
  · exact h

theorem vr6_inv (q sql : String) {s : VS} (h : VInv s) : VInv (vr6 q sql s) := by
  unfold vr6
  split
  · exact push_inv _ _ (by norm_num) h
  · exact h

theorem vr7_inv (q sql : String) {s : VS} (h : VInv s) : VInv (vr7 q sql s) := by
  unfold vr7
  split
  · exact h
  · split
    · exact push_inv _ _ (by norm_num) h
    · split
      · exact push_inv _ _ (by norm_num) h
      · exact h

theorem vr8_inv (q sql : String) {s : VS} (h : VInv s) : VInv (vr8 q sql s) := by
  unfold vr8
  split
  · split
    · exact push_inv _ _ (by norm_num) h
    · split
      · exact push_inv _ _ (by norm_num) h
      · exact h
  · exact h

theorem vr9_inv (q sql : String) {s : VS} (h : VInv s) : VInv (vr9 q sql s) := by
  unfold vr9
  split
  · exact h
  · split
    · exact push_inv _ _ (by norm_num) h
    · split
      · exact push_inv _ _ (by norm_num) h
      · exact h

theorem foldl_inv (f : VS → (String × TableInfo) → VS)
    (hf : ∀ st p, VInv st → VInv (f st p)) :
    ∀ (l : List (String × TableInfo)) (s : VS), VInv s → VInv (l.foldl f s) := by
  intro l
  induction l with
  | nil => intro s hs; simpa using hs
  | cons a rest ih =>
    intro s hs
    simp only [List.foldl_cons]
    exact ih _ (hf s a hs)

theorem vr10_inv (q sql query : String) (schema : Schema) {s : VS} (h : VInv s) :
    VInv (vr10 q sql query schema s) := by
  unfold vr10
  refine foldl_inv _ ?_ schema s h
  intro st p hst
  split
  · exact push_inv _ _ (by norm_num) hst
  · exact hst

theorem vr11_inv (q sql : String) {s : VS} (h : VInv s) : VInv (vr11 q sql s) := by
  unfold vr11
  split
  · exact push_inv _ _ (by norm_num) h
  · exact h

theorem run_rules_inv (q sql query : String) (schema : Schema) :
    VInv (run_rules q sql query schema) := by
  unfold run_rules
  exact vr11_inv _ _ (vr10_inv _ _ _ _ (vr9_inv _ _ (vr8_inv _ _ (vr7_inv _ _
    (vr6_inv _ _ (vr5_inv _ _ (vr4_inv _ _ (vr3_inv _ _ (vr2_inv _ _
      (vr1_inv _ _ ⟨le_refl _, by simp⟩))))))))))

theorem finalize_confidence (s : VS) : (finalize s).confidence = max s.confidence 20 := by
  simp only [finalize]
  split
  · rfl
  · split
    · rfl
    · rfl

theorem finalize_issues (s : VS) : (finalize s).issues = s.issues := by
  simp only [finalize]
  split
  · rfl
  · split
    · rfl
    · rfl

theorem foldl_append_eq_flatMap (g : (String × TableInfo) → List String) :
    ∀ (l : List (String × TableInfo)) (acc : List String),
      l.foldl (fun lines p => lines ++ g p) acc = acc ++ l.flatMap g := by
  intro l
  induction l with
  | nil => intro acc; simp
  | cons a rest ih =>
    intro acc
    simp only [List.foldl_cons, List.flatMap_cons, ih, List.append_assoc]

theorem finalize_status_message (s : VS) :
    (finalize s).status = (if 80 ≤ (finalize s).confidence then "good"
        else if 60 ≤ (finalize s).confidence then "warning" else "error") ∧
      (finalize s).message =
        (if 80 ≤ (finalize s).confidence then "Query looks good and matches your question"
         else if 60 ≤ (finalize s).confidence then "Query may partially match your question"
         else "Query might not fully answer your question") := by
  rw [finalize_confidence]
  by_cases h1 : (80 : Int) ≤ max s.confidence 20
  · constructor <;> simp [finalize, h1]
  · by_cases h2 : (60 : Int) ≤ max s.confidence 20
    · constructor <;> simp [finalize, h1, h2]
    · constructor <;> simp [finalize, h1, h2]

theorem finalize_conf_iff (s : VS) (h : VInv s) :
    ((finalize s).confidence = 100 ↔ (finalize s).issues = []) := by
  rw [finalize_confidence, finalize_issues]
  constructor
  · intro hm
    have h100 : s.confidence = 100 := by
      rcases max_choice s.confidence 20 with h' | h' <;> omega
    exact h.2.mp h100
  · intro hi
    rw [h.2.mpr hi]
    decide

/-! ## Claim theorems -/

/-- C1 counterexample: on Scenario C exactly as claimed (column type
`REAL`), the pattern generator does NOT return the AVG query — `REAL`
contains none of the numeric markers INT/FLOAT/DECIMAL/NUMERIC, so the
generator falls through to the default template. -/
theorem scenario_c_counterexample :
    simple_query_generator "What is the average price of products?" (some schema_products_real) =
      "SELECT * FROM \"products\" LIMIT 10" ∧
    simple_query_generator "What is the average price of products?" (some schema_products_real) ≠
      "SELECT AVG(\"price\") FROM \"products\"" := by
  decide

/-- C1 amended: with the column type carrying a recognised numeric marker
(`NUMERIC` instead of `REAL`), the generator returns
`SELECT AVG("price") FROM "products"` and the validator on that pair
returns confidence 100, status `good`, no issues. -/
theorem scenario_c_amended :
    simple_query_generator "What is the average price of products?" (some schema_products_numeric) =
      "SELECT AVG(\"price\") FROM \"products\"" ∧
    (validate_query "What is the average price of products?"
      "SELECT AVG(\"price\") FROM \"products\"" (some schema_products_numeric)).confidence = 100 ∧
    (validate_query "What is the average price of products?"
      "SELECT AVG(\"price\") FROM \"products\"" (some schema_products_numeric)).status = "good" ∧
    (validate_query "What is the average price of products?"
      "SELECT AVG(\"price\") FROM \"products\"" (some schema_products_numeric)).issues = [] := by
  decide

/-- C2 counterexample: on Scenario D the generator does return
`SELECT COUNT(*) FROM "sales"`, but the validator deducts for BOTH the
date rule (`last month` is in `date_keywords`, −25) and the duration
rule (`last month` is also in `duration_keywords`, −30): confidence is
45, not 70, the status is `error`, not `warning`, and there are two
issues, not one. -/
theorem scenario_d_counterexample :
    simple_query_generator "What were total sales last month?" (some schema_sales) =
      "SELECT COUNT(*) FROM \"sales\"" ∧
    (validate_query "What were total sales last month?" "SELECT COUNT(*) FROM \"sales\""
      (some schema_sales)).confidence = 45 ∧
    (validate_query "What were total sales last month?" "SELECT COUNT(*) FROM \"sales\""
      (some schema_sales)).confidence ≠ 70 ∧
    (validate_query "What were total sales last month?" "SELECT COUNT(*) FROM \"sales\""
      (some schema_sales)).status ≠ "warning" ∧
    (validate_query "What were total sales last month?" "SELECT COUNT(*) FROM \"sales\""
      (some schema_sales)).issues.length ≠ 1 := by
  decide

/-- C2 amended: the generator returns `SELECT COUNT(*) FROM "sales"`;
the validator deducts 25 (date phrase `last month`, no WHERE) and 30
(duration phrase `last month`, no WHERE), yielding confidence 45,
status `error`, and exactly two issues about the missing WHERE clause. -/
theorem scenario_d_amended :
    simple_query_generator "What were total sales last month?" (some schema_sales) =
      "SELECT COUNT(*) FROM \"sales\"" ∧
    (validate_query "What were total sales last month?" "SELECT COUNT(*) FROM \"sales\""
      (some schema_sales)).confidence = 45 ∧
    (validate_query "What were total sales last month?" "SELECT COUNT(*) FROM \"sales\""
      (some schema_sales)).status = "error" ∧
    (validate_query "What were total sales last month?" "SELECT COUNT(*) FROM \"sales\""
      (some schema_sales)).issues =
      ["Question mentions a specific time (last month), but query has no WHERE clause",
       "Question specifies a duration/period, but query has no WHERE clause to limit the time range"] := by
  decide

/-- C3: for every question, query and schema (including an absent one),
the confidence returned by `validate_query` lies in [20, 100]: rules only
subtract and the result is clamped below at 20. -/
theorem validator_confidence_bounds (question query : String) (schemaOpt : Option Schema) :
    20 ≤ (validate_query question query schemaOpt).confidence ∧
      (validate_query question query schemaOpt).confidence ≤ 100 := by
  have hinv := run_rules_inv (strLower question) (strUpper query) query (schemaOpt.getD [])
  have hc : (validate_query question query schemaOpt).confidence =
      max (run_rules (strLower question) (strUpper query) query (schemaOpt.getD [])).confidence 20 :=
    finalize_confidence _
  rw [hc]
  exact ⟨le_max_right _ _, max_le hinv.1 (by norm_num)⟩

/-- C4: for every question and non-empty schema, the pattern generator
resolves intent by first match in the claimed priority order (count
keywords, then show keywords, then average with the first
numeric-marker column, then the default), applied to the resolved
target table. -/
theorem generator_intent_priority (question : String) (s : Schema) (h : s ≠ []) :
    simple_query_generator question (some s) =
      intent_spec (strLower question) s
        ((resolve_target (strLower question) (s.map Prod.fst)).getD "None") := by
  obtain ⟨t, ht⟩ := resolve_target_some (strLower question) (s.map Prod.fst)
    (fun hm => h (List.map_eq_nil_iff.mp hm))
  simp only [simple_query_generator, intent_spec, ht, Option.getD_some]
  rw [head?_filter_map]

/-- C4 witness: the theorem applied at a concrete question and schema. -/
theorem generator_intent_priority_witness :
    ([("t", ({} : TableInfo))] : Schema) ≠ [] ∧
      simple_query_generator "count x" (some [("t", ({} : TableInfo))]) =
        intent_spec (strLower "count x") [("t", ({} : TableInfo))]
          ((resolve_target (strLower "count x")
            (([("t", ({} : TableInfo))] : Schema).map Prod.fst)).getD "None") :=
  ⟨by decide, generator_intent_priority "count x" [("t", {})] (by decide)⟩

/-- C5 counterexample: with the degenerate schema `[("a", _), ("", _)]`
and question `b`, the claimed resolution (first table whose name occurs
case-insensitively in the question) picks the empty-named table, but
the code's Python truthiness check `if not target_table` replaces an
empty-string match with the first table, so the generator targets `a`. -/
theorem generator_table_resolution_counterexample :
    resolve_target (strLower "b") (schema_degenerate.map Prod.fst) = some "a" ∧
    target_table_spec "b" schema_degenerate = some "" ∧
    resolve_target (strLower "b") (schema_degenerate.map Prod.fst) ≠
      target_table_spec "b" schema_degenerate ∧
    simple_query_generator "b" (some schema_degenerate) = "SELECT * FROM \"a\" LIMIT 10" := by
  decide

/-- C5 amended: for every question and every non-empty schema all of
whose table names are non-empty, the generator's target table is the
first table in Schema order whose name appears case-insensitively as a
substring of the question, defaulting to the first table. -/
theorem generator_table_resolution_amended (question : String) (s : Schema) (_h1 : s ≠ [])
    (h2 : s.all (fun p => p.1 != "") = true) :
    resolve_target (strLower question) (s.map Prod.fst) = target_table_spec question s := by
  unfold resolve_target target_table_spec
  cases hf : (s.map Prod.fst).find? (fun t => strIn (strLower t) (strLower question)) with
  | none => rfl
  | some t =>
    obtain ⟨p, hp, hpt⟩ := List.mem_map.mp (List.mem_of_find?_eq_some hf)
    have ht : t ≠ "" := hpt ▸ bne_iff_ne.mp (List.all_eq_true.mp h2 p hp)
    show (if t = "" then (s.map Prod.fst).head? else some t) = some t
    rw [if_neg ht]

/-- C5 witness: the amended theorem applied at a concrete question and
schema. -/
theorem generator_table_resolution_amended_witness :
    (([("users", ({} : TableInfo))] : Schema) ≠ [] ∧
      (([("users", ({} : TableInfo))] : Schema).all (fun p => p.1 != "") = true) ∧
      resolve_target (strLower "list users")
          (([("users", ({} : TableInfo))] : Schema).map Prod.fst) =
        target_table_spec "list users" [("users", ({} : TableInfo))]) :=
  ⟨by decide, by decide,
    generator_table_resolution_amended "list users" [("users", {})] (by decide) (by decide)⟩

/-- C6: every query produced by the pattern generator (for any question
and any schema, empty or absent included) literally begins with
`SELECT`, so the executor boundary's case-insensitive non-SELECT
rejection never fires on it. -/
theorem generator_select_only (question : String) (schemaOpt : Option Schema) :
    strStarts (simple_query_generator question schemaOpt) "SELECT" = true ∧
      executor_rejects (simple_query_generator question schemaOpt) = false := by
  obtain ⟨r, hr⟩ := gen_shape question schemaOpt
  rw [hr]
  constructor
  · exact starts_append _ _ _ (by decide)
  · have h2 : strStarts (strUpper ("SELECT" ++ r)) "SELECT" = true := by
      rw [strUpper_append]
      exact starts_append _ _ _ (by decide)
    simp [executor_rejects, h2]

/-- C7: for every question, query and schema, `validate_query` maps its
final confidence to status and message exactly by the thresholds 80
(good) and 60 (warning), with the three fixed messages. -/
theorem validator_status_mapping (question query : String) (schemaOpt : Option Schema) :
    (validate_query question query schemaOpt).status =
      (if 80 ≤ (validate_query question query schemaOpt).confidence then "good"
       else if 60 ≤ (validate_query question query schemaOpt).confidence then "warning"
       else "error") ∧
    (validate_query question query schemaOpt).message =
      (if 80 ≤ (validate_query question query schemaOpt).confidence then
        "Query looks good and matches your question"
       else if 60 ≤ (validate_query question query schemaOpt).confidence then
        "Query may partially match your question"
       else "Query might not fully answer your question") :=
  finalize_status_message (run_rules (strLower question) (strUpper query) query (schemaOpt.getD []))

/-- C8: the context renderer emits one block per table in exactly the
Schema's iteration order (the accumulated lines are the concatenation,
in Schema order, of the per-table blocks), within each table the column
lines are the order-preserving image of the stored column list; an
absent or empty schema renders to the empty string and an absent
documentation behaves as the empty overlay — no failure. -/
theorem context_renderer_order (schema : Schema) (doc : Documentation) :
    build_schema_context_lines (some schema) (some doc) =
      schema.flatMap (fun p =>
        ("TABLE: " ++ p.1) ::
          ((if (doc_for doc p.1).description ≠ ""
            then ["  Description: " ++ (doc_for doc p.1).description] else [])
          ++ ["  COLUMNS:"]
          ++ p.2.columns.map (column_line (doc_for doc p.1))
          ++ (if p.2.foreign_keys ≠ []
              then "  FOREIGN KEYS:" :: p.2.foreign_keys.map fk_line else [])
          ++ [""])) ∧
    build_schema_context none (some doc) = "" ∧
    build_schema_context (some []) (some doc) = "" ∧
    build_schema_context (some schema) none = build_schema_context (some schema) (some []) := by
  refine ⟨?_, rfl, rfl, rfl⟩
  show schema.foldl (fun lines p => lines ++ table_lines doc p.1 p.2) [] =
    schema.flatMap (fun p => table_lines doc p.1 p.2)
  exact (foldl_append_eq_flatMap (fun p => table_lines doc p.1 p.2) schema []).trans
    (List.nil_append _)

/-- C9: for every question, query and schema, `validate_query` returns
confidence 100 exactly when its issues list is empty — every deduction
is recorded together with an issue and vice versa. -/
theorem validator_confidence_iff_no_issues (question query : String) (schemaOpt : Option Schema) :
    ((validate_query question query schemaOpt).confidence = 100 ↔
      (validate_query question query schemaOpt).issues = []) :=
  finalize_conf_iff (run_rules (strLower question) (strUpper query) query (schemaOpt.getD []))
    (run_rules_inv (strLower question) (strUpper query) query (schemaOpt.getD []))

/-- C10: for every question, on the empty schema the pattern generator
returns a well-formed query whose quoted table identifier is the
literal text `None` (the AVG branch cannot produce a query because the
empty schema has no columns). -/
theorem empty_schema_generator_total (question : String) :
    simple_query_generator question (some []) = "SELECT COUNT(*) FROM \"None\"" ∨
    simple_query_generator question (some []) = "SELECT * FROM \"None\" LIMIT 100" ∨
    simple_query_generator question (some []) = "SELECT * FROM \"None\" LIMIT 10" := by
  simp only [simple_query_generator, Option.getD_some, List.map_nil, resolve_target,
    List.find?_nil, List.head?_nil, Option.getD_none, schema_columns, List.filter_nil,
    List.head?_nil]
  split
  · exact Or.inl (by decide)
  · split
    · exact Or.inr (Or.inl (by decide))
    · split
      · exact Or.inr (Or.inr (by decide))
      · exact Or.inr (Or.inr (by decide))
